import Mathlib

/-!
Shallow embedding of the `Sid` / `SecurityDescriptor` core of
`windows-permissions-rs` (src/structures.rs), together with models of the
thin wrapper functions it calls.  Native memory is modelled as a heap of
SID records indexed by machine addresses; pointers are addresses with `0`
the null pointer.  Wrapper functions whose source is not part of the
provided tree are modelled from the specification's contract table and are
marked `Modelled from the spec:` in their doc comments.
-/

namespace WinPerm

/-- A machine address; `0` is the null pointer. -/
abbrev Ptr := Nat

/-- `std::ptr::NonNull<c_void>`: an address known to be non-null. -/
def NonNullPtr := { p : Ptr // p ≠ 0 }

instance : DecidableEq NonNullPtr := fun a b =>
  decidable_of_iff (a.val = b.val) Subtype.ext_iff.symm

/-- `NonNull::new`: `some` exactly on non-null addresses. -/
def NonNullPtr.new (p : Ptr) : Option NonNullPtr :=
  if h : p = 0 then none else some ⟨p, h⟩

/-- The content of a native SID record: a revision, a 6-byte identifier
authority, and a list of 32-bit sub-authority values.  The record is
self-describing: its sub-authority count is the length of the list. -/
structure SidRecord where
  revision : Nat
  idAuthority : List Nat
  subAuthorities : List Nat
deriving DecidableEq

/-- Native memory: the SID record stored at each address. -/
abbrev Heap := Ptr → SidRecord

/-- Store a record at an address. -/
def Heap.write (h : Heap) (p : Ptr) (r : SidRecord) : Heap :=
  fun q => if q = p then r else h q

/-- `Sid` (structures.rs line 12): a newtype over a non-null pointer to a
native buffer.  A `&Sid` borrowed view produced by `ref_from_nonnull` is
the same data (the transmute at line 39 reinterprets the pointer). -/
structure Sid where
  ptr : NonNullPtr

/-- `Sid::owned_from_nonnull` (structures.rs lines 49-56): wraps the
pointer, taking ownership. -/
def Sid.owned_from_nonnull (p : NonNullPtr) : Sid := ⟨p⟩

/-- `Sid::ref_from_nonnull` (structures.rs lines 38-40): transmutes the
pointer into a borrowed view; the view is the pointer itself. -/
def Sid.ref_from_nonnull (p : NonNullPtr) : Sid := ⟨p⟩

/-- `Sid::as_ptr` (structures.rs lines 72-74): the stored pointer. -/
def Sid.as_ptr (s : Sid) : Ptr := s.ptr.val

/-- Modelled from the spec: the wrapper `GetSidSubAuthorityCount` (its
source file is not in the provided tree) performs the native
get-sub-authority-count call, which reads the count byte stored in the
record itself. -/
def GetSidSubAuthorityCount (heap : Heap) (s : Sid) : Nat :=
  (heap s.ptr.val).subAuthorities.length

/-- The wrapper `GetSidIdentifierAuthority`
(src/wrappers/get_sid_identifier_authority.rs lines 5-10): one native
get-identifier-authority call against the stored pointer, returning a
borrow of the `Value` field — the 6-byte authority of the record the
pointer addresses. -/
def GetSidIdentifierAuthority (heap : Heap) (s : Sid) : List Nat :=
  (heap s.ptr.val).idAuthority

/-- Modelled from the spec: the raw native get-sub-authority read, only
meaningful when `index` is below the record's count. -/
def GetSidSubAuthorityUnchecked (heap : Heap) (s : Sid) (index : Nat) : Nat :=
  ((heap s.ptr.val).subAuthorities.get? index).getD 0

/-- Modelled from the spec: the wrapper `GetSidSubAuthorityChecked` (its
source file is not in the provided tree) compares the requested index with
the count and performs the raw read only when the index is in bounds;
otherwise it reports "absent" without touching memory. -/
def GetSidSubAuthorityChecked (heap : Heap) (s : Sid) (index : Nat) : Option Nat :=
  if index < GetSidSubAuthorityCount heap s then
    some (GetSidSubAuthorityUnchecked heap s index)
  else
    none

/-- `Sid::sub_authority_count` (structures.rs lines 77-79). -/
def Sid.sub_authority_count (heap : Heap) (s : Sid) : Nat :=
  GetSidSubAuthorityCount heap s

/-- `Sid::id_authority` (structures.rs lines 82-84). -/
def Sid.id_authority (heap : Heap) (s : Sid) : List Nat :=
  GetSidIdentifierAuthority heap s

/-- `Sid::sub_authority` (structures.rs lines 89-91). -/
def Sid.sub_authority (heap : Heap) (s : Sid) (index : Nat) : Option Nat :=
  GetSidSubAuthorityChecked heap s index

/-- `std::io::Error` of OS-error kind: carries the native error code
(`io::Error::from_raw_os_error`). -/
structure OsError where
  code : Int
deriving DecidableEq

/-- The native environment's failure behaviour for one run of `Sid::new`:
`allocFail = some e` means the native allocate-and-initialize call reports
OS error `e`; `validFail = some e` means the native validity check reports
failure `e` even on the freshly allocated record (the defensive case the
spec calls asserted-not-assumed). -/
structure NativeEnv where
  allocFail : Option OsError
  validFail : Option OsError

/-- Modelled from the spec: the wrapper `AllocateAndInitializeSid` (its
source file is not in the provided tree) takes a 6-byte authority and 1-8
sub-authorities and performs the native allocate-and-initialize call,
returning an owned handle to a fresh record holding exactly those fields,
or the OS error the native call reported.  `fresh` is the address the
native allocator picks. -/
def AllocateAndInitializeSid (env : NativeEnv) (heap : Heap) (fresh : NonNullPtr)
    (id_auth : List Nat) (sub_auths : List Nat) : Except OsError (Heap × Sid) :=
  match env.allocFail with
  | some e => .error e
  | none =>
    if 1 ≤ sub_auths.length ∧ sub_auths.length ≤ 8 then
      .ok (heap.write fresh.val ⟨1, id_auth, sub_auths⟩, ⟨fresh⟩)
    else
      .error ⟨87⟩

/-- A SID record is well formed: revision 1, a 6-byte authority, at most 8
sub-authorities. -/
def SidRecord.wf (r : SidRecord) : Bool :=
  r.revision == 1 && r.idAuthority.length == 6 && r.subAuthorities.length ≤ 8

/-- Modelled from the spec: the wrapper `IsValidSid` (its source file is
not in the provided tree) performs the native validity check and turns a
negative answer into an OS error carrying the native code. -/
def IsValidSid (env : NativeEnv) (heap : Heap) (s : Sid) : Except OsError Unit :=
  match env.validFail with
  | some e => .error e
  | none => if (heap s.ptr.val).wf then .ok () else .error ⟨1337⟩

/-- `Sid::new` (structures.rs lines 62-66): allocate and initialize, then
validate, propagating either failure with `?` (an early return of the
error); `Ok` only after both succeed.  The heap is threaded to make the
allocation observable. -/
def Sid.new (env : NativeEnv) (heap : Heap) (fresh : NonNullPtr)
    (id_auth : List Nat) (sub_auths : List Nat) : Except OsError (Heap × Sid) :=
  match AllocateAndInitializeSid env heap fresh id_auth sub_auths with
  | .error e => .error e
  | .ok (heap2, sid) =>
    match IsValidSid env heap2 sid with
    | .error e => .error e
    | .ok _ => .ok (heap2, sid)

/-- Modelled from the spec: the wrapper `EqualSid` (its source file is not
in the provided tree) performs the native equality comparison, which is a
deep comparison of content — byte-for-byte identical identifier authority
and sub-authority content — not a pointer comparison. -/
def EqualSid (heap : Heap) (a b : Sid) : Bool :=
  (heap a.ptr.val).idAuthority == (heap b.ptr.val).idAuthority &&
    (heap a.ptr.val).subAuthorities == (heap b.ptr.val).subAuthorities

/-- `impl PartialEq for Sid` (structures.rs lines 123-127): `a == b`
delegates to the wrapper `EqualSid`. -/
def Sid.beq (heap : Heap) (a b : Sid) : Bool :=
  EqualSid heap a b

/-- The outcome of an operation that may hit a fatal assertion: either a
value, or an aborted run carrying the panic message. -/
inductive FatalOr (α : Type) where
  | fatal (msg : String)
  | ok (a : α)
deriving DecidableEq

/-- Whether an outcome is the fatal one. -/
def FatalOr.isFatal {α : Type} : FatalOr α → Bool
  | .fatal _ => true
  | .ok _ => false

/-- Modelled from the spec: the wrapper `ConvertSidToStringSid` (its
source file is not in the provided tree) performs the native SID-to-string
conversion, producing the canonical "S-1-..." string or an OS error.  The
lossy string conversion applied by the caller is the identity on the
returned text.  It is kept abstract here as an oracle argument. -/
abbrev ConvertSidToStringSidResult := Except OsError String

/-- `impl Display for Sid` (structures.rs lines 111-121): render the
string returned by the conversion wrapper; `expect` turns a conversion
failure into a fatal assertion with the message at line 117. -/
def Sid.display (conv : Sid → ConvertSidToStringSidResult) (s : Sid) : FatalOr String :=
  match conv s with
  | .ok str => .ok str
  | .error _ => .fatal "Passed a safe Sid to ConvertSidToStringSid but got an error"

/-- The result of the native `LocalFree` call: null (0) on success, the
original handle on failure. -/
abbrev LocalFreeResult := Ptr

/-- `impl Drop for Sid` (structures.rs lines 14-18): calls `LocalFree` on
the stored pointer and discards its result — the statement at line 16 is
an expression statement whose value is dropped, with no assertion. -/
def Sid.dropOutcome (r : LocalFreeResult) : FatalOr Unit :=
  let _ := r
  .ok ()

/-- `SECURITY_DESCRIPTOR` aggregate (structures.rs lines 137-143): owned
buffer plus four optional sub-pointers. -/
structure SecurityDescriptor where
  sd : NonNullPtr
  owner : Option NonNullPtr
  group : Option NonNullPtr
  dacl : Option NonNullPtr
  sacl : Option NonNullPtr

/-- `SecurityDescriptor::from_raw` (structures.rs lines 160-175): wrap
`sd` with `NonNull::new(..).expect(..)` — fatal when `sd` is null — and
record `NonNull::new` of each sub-pointer.  No pointer is dereferenced:
the function only tests addresses against null. -/
def SecurityDescriptor.from_raw (sd owner group dacl sacl : Ptr) :
    FatalOr SecurityDescriptor :=
  match NonNullPtr.new sd with
  | none => .fatal "SecurityDescriptor::from_raw called with null sd pointer"
  | some sdp =>
    .ok ⟨sdp, NonNullPtr.new owner, NonNullPtr.new group,
      NonNullPtr.new dacl, NonNullPtr.new sacl⟩

/-- `SecurityDescriptor::owner` (structures.rs lines 178-184): map the
stored owner pointer, when present, through `Sid::ref_from_nonnull` to a
borrowed view scoped to the descriptor. -/
def SecurityDescriptor.ownerView (d : SecurityDescriptor) : Option Sid :=
  d.owner.map Sid.ref_from_nonnull

/-- `SecurityDescriptor::group` (structures.rs lines 187-193). -/
def SecurityDescriptor.groupView (d : SecurityDescriptor) : Option Sid :=
  d.group.map Sid.ref_from_nonnull

/-- `impl Drop for SecurityDescriptor` (structures.rs lines 196-201):
calls `LocalFree` on the descriptor buffer and asserts the result is
null; a non-null result is a fatal assertion failure. -/
def SecurityDescriptor.dropOutcome (r : LocalFreeResult) : FatalOr Unit :=
  if r = 0 then .ok () else .fatal "assertion failed: result.is_null()"

/-- An observable native allocation event trace entry. -/
inductive NativeEvent where
  | alloc (p : Ptr)
  | localFree (p : Ptr)
deriving DecidableEq

/-- The events of `impl Drop for Sid`: exactly one `LocalFree` of the
stored pointer (structures.rs line 16). -/
def Sid.dropEvents (s : Sid) : List NativeEvent :=
  [NativeEvent.localFree s.ptr.val]

/-- The events of `impl Drop for SecurityDescriptor`: exactly one
`LocalFree`, of the descriptor buffer only — the owner/group/dacl/sacl
sub-pointers are never freed (structures.rs line 198). -/
def SecurityDescriptor.dropEvents (d : SecurityDescriptor) : List NativeEvent :=
  [NativeEvent.localFree d.sd.val]

/-- The events of a run of `Sid::new`: the allocation event when the
allocate call succeeds, followed — when `IsValidSid` fails — by the
`LocalFree` emitted by the drop of the local `sid` at the early `?`
return.  On the `Ok` path the returned `Sid` still owns the buffer, so no
free is emitted inside `new` itself. -/
def Sid.newEvents (env : NativeEnv) (heap : Heap) (fresh : NonNullPtr)
    (id_auth : List Nat) (sub_auths : List Nat) : List NativeEvent :=
  match AllocateAndInitializeSid env heap fresh id_auth sub_auths with
  | .error _ => []
  | .ok (heap2, sid) =>
    match IsValidSid env heap2 sid with
    | .error _ => [NativeEvent.alloc sid.ptr.val] ++ Sid.dropEvents sid
    | .ok _ => [NativeEvent.alloc sid.ptr.val]

/-- How many times the trace frees address `p`. -/
def freeCount (p : Ptr) (evs : List NativeEvent) : Nat :=
  evs.count (NativeEvent.localFree p)

/-- How many times the trace allocates address `p`. -/
def allocCount (p : Ptr) (evs : List NativeEvent) : Nat :=
  evs.count (NativeEvent.alloc p)

/-- Dropping a borrowed `&Sid` view runs no destructor: references have no
drop glue, and `ref_from_nonnull` (structures.rs line 38) returns `&Sid`,
not an owning `Sid`. -/
def borrowDropEvents : List NativeEvent := []

/-- A concrete heap used to instantiate theorems on closed inputs. -/
def cHeap : Heap := fun _ => ⟨1, [0, 0, 0, 0, 0, 5], [32]⟩

theorem Heap.write_same (h : Heap) (p : Ptr) (r : SidRecord) :
    h.write p r p = r := by
  simp [Heap.write]

theorem Heap.write_other (h : Heap) (p q : Ptr) (r : SidRecord) (hne : q ≠ p) :
    h.write p r q = h q := by
  simp [Heap.write, hne]

theorem Sid.new_eq_ok {env : NativeEnv} {heap : Heap} {fresh : NonNullPtr}
    {id_auth sub_auths : List Nat} {out : Heap × Sid} :
    Sid.new env heap fresh id_auth sub_auths = .ok out ↔
      env.allocFail = none ∧ env.validFail = none ∧
      1 ≤ sub_auths.length ∧ sub_auths.length ≤ 8 ∧ id_auth.length = 6 ∧
      out = (heap.write fresh.val ⟨1, id_auth, sub_auths⟩, ⟨fresh⟩) := by
  unfold Sid.new AllocateAndInitializeSid IsValidSid
  cases hA : env.allocFail with
  | some e => simp [hA]
  | none =>
    by_cases hlen : 1 ≤ sub_auths.length ∧ sub_auths.length ≤ 8
    · cases hV : env.validFail with
      | some e => simp [hA, hV, hlen]
      | none =>
        by_cases hid : id_auth.length = 6
        · simp [hA, hV, hlen, hid, SidRecord.wf, Heap.write_same, eq_comm]
        · simp [hA, hV, hlen, hid, SidRecord.wf, Heap.write_same]
    · simp [hA, hlen]
      exact fun _ h1 h8 _ _ => (hlen ⟨h1, h8⟩).elim

theorem Sid.sub_authority_eq_lookup (heap : Heap) (s : Sid) (index : Nat) :
    Sid.sub_authority heap s index = (heap s.ptr.val).subAuthorities.get? index := by
  unfold Sid.sub_authority GetSidSubAuthorityChecked GetSidSubAuthorityUnchecked
    GetSidSubAuthorityCount
  by_cases h : index < (heap s.ptr.val).subAuthorities.length
  · have he := List.get?_eq_get h
    simp [h, he]
  · have hn : (heap s.ptr.val).subAuthorities.get? index = none :=
      List.get?_eq_none.mpr (Nat.le_of_not_lt h)
    simp [h, hn]
    omega

/-- C1: for every constructed `Sid` and every requested index,
`Sid::sub_authority` is present exactly when the index is below the
sub-authority count, and its answer coincides with the safe (in-bounds)
lookup into the record's sub-authority list, so no out-of-bounds read
occurs for any index. -/
theorem sub_authority_present_iff_below_count (heap : Heap) (s : Sid) (index : Nat) :
    ((Sid.sub_authority heap s index).isSome ↔
      index < Sid.sub_authority_count heap s) ∧
    Sid.sub_authority heap s index = (heap s.ptr.val).subAuthorities.get? index := by
  refine ⟨?_, Sid.sub_authority_eq_lookup heap s index⟩
  rw [Sid.sub_authority_eq_lookup heap s index]
  unfold Sid.sub_authority_count GetSidSubAuthorityCount
  by_cases h : index < (heap s.ptr.val).subAuthorities.length
  · have he := List.get?_eq_get h
    simp [h, he]
  · have hn : (heap s.ptr.val).subAuthorities.get? index = none :=
      List.get?_eq_none.mpr (Nat.le_of_not_lt h)
    simp [h, hn]
    omega

/-- C10: taking ownership of a non-null native handle and reading it back
with `as_ptr` is the identity on the handle. -/
theorem owned_from_nonnull_as_ptr (p : NonNullPtr) :
    (Sid.owned_from_nonnull p).as_ptr = p.val := rfl

/-- C2: for every 6-byte identifier authority and every sequence of 1 to 8
sub-authorities, when the native collaborator does not fail, `Sid::new`
returns `Ok`, and the constructed `Sid` reports the same identifier
authority, the same count, and the same sub-authority values through its
accessors. -/
theorem new_roundtrip (env : NativeEnv) (heap : Heap) (fresh : NonNullPtr)
    (id_auth sub_auths : List Nat)
    (hid : id_auth.length = 6)
    (h1 : 1 ≤ sub_auths.length) (h8 : sub_auths.length ≤ 8)
    (hA : env.allocFail = none) (hV : env.validFail = none) :
    ∃ heap2 s, Sid.new env heap fresh id_auth sub_auths = .ok (heap2, s) ∧
      Sid.id_authority heap2 s = id_auth ∧
      Sid.sub_authority_count heap2 s = sub_auths.length ∧
      ∀ i, i < sub_auths.length → Sid.sub_authority heap2 s i = sub_auths.get? i := by
  refine ⟨heap.write fresh.val ⟨1, id_auth, sub_auths⟩, ⟨fresh⟩, ?_, ?_, ?_, ?_⟩
  · exact Sid.new_eq_ok.mpr ⟨hA, hV, h1, h8, hid, rfl⟩
  · unfold Sid.id_authority GetSidIdentifierAuthority
    simp [Heap.write_same]
  · unfold Sid.sub_authority_count GetSidSubAuthorityCount
    simp [Heap.write_same]
  · intro i hi
    unfold Sid.sub_authority GetSidSubAuthorityChecked GetSidSubAuthorityCount
      GetSidSubAuthorityUnchecked
    simp only [Heap.write_same]
    have he := List.get?_eq_get hi
    simp [hi, he]

/-- C2 witness: a concrete run of `Sid::new` on the BUILTIN\Administrators
parameters. -/
theorem new_roundtrip_witness :
    ∃ heap2 s,
      Sid.new ⟨none, none⟩ cHeap ⟨1, one_ne_zero⟩ [0, 0, 0, 0, 0, 5] [32, 544] =
        .ok (heap2, s) ∧
      Sid.id_authority heap2 s = [0, 0, 0, 0, 0, 5] ∧
      Sid.sub_authority_count heap2 s = 2 ∧
      ∀ i, i < 2 → Sid.sub_authority heap2 s i = [32, 544].get? i :=
  new_roundtrip ⟨none, none⟩ cHeap ⟨1, one_ne_zero⟩ [0, 0, 0, 0, 0, 5] [32, 544]
    (by decide) (by decide) (by decide) rfl rfl

/-- C3: `Sid::new` propagates the OS error of a failed allocation, it
propagates the OS error of a failed post-allocation validity check, and an
`Ok` result certifies that the allocation succeeded and that the validity
check was performed on it and succeeded. -/
theorem new_error_paths (env : NativeEnv) (heap : Heap) (fresh : NonNullPtr)
    (id_auth sub_auths : List Nat) :
    (∀ e, env.allocFail = some e →
      Sid.new env heap fresh id_auth sub_auths = .error e) ∧
    (∀ e, env.allocFail = none → env.validFail = some e →
      1 ≤ sub_auths.length → sub_auths.length ≤ 8 →
      Sid.new env heap fresh id_auth sub_auths = .error e) ∧
    (∀ heap2 s, Sid.new env heap fresh id_auth sub_auths = .ok (heap2, s) →
      AllocateAndInitializeSid env heap fresh id_auth sub_auths = .ok (heap2, s) ∧
      IsValidSid env heap2 s = .ok ()) := by
  refine ⟨?_, ?_, ?_⟩
  · intro e hA
    unfold Sid.new AllocateAndInitializeSid
    simp [hA]
  · intro e hA hV h1 h8
    unfold Sid.new AllocateAndInitializeSid IsValidSid
    simp [hA, hV, h1, h8]
  · intro heap2 s hok
    unfold Sid.new at hok
    rcases hall : AllocateAndInitializeSid env heap fresh id_auth sub_auths with e | pair
    · rw [hall] at hok
      exact absurd hok (by simp)
    · rcases pair with ⟨hp, sd⟩
      rw [hall] at hok
      dsimp only at hok
      rcases hv : IsValidSid env hp sd with e | u
      · rw [hv] at hok
        exact absurd hok (by simp)
      · cases u
        rw [hv] at hok
        dsimp only at hok
        simp only [Except.ok.injEq, Prod.mk.injEq] at hok
        rcases hok with ⟨rfl, rfl⟩
        exact ⟨rfl, hv⟩

/-- C3 witness: concrete runs exercising the allocation-failure path, the
validation-failure path and the success path. -/
theorem new_error_paths_witness :
    Sid.new ⟨some ⟨5⟩, none⟩ cHeap ⟨1, one_ne_zero⟩ [0, 0, 0, 0, 0, 5] [32] =
      .error ⟨5⟩ ∧
    Sid.new ⟨none, some ⟨6⟩⟩ cHeap ⟨1, one_ne_zero⟩ [0, 0, 0, 0, 0, 5] [32] =
      .error ⟨6⟩ :=
  ⟨(new_error_paths ⟨some ⟨5⟩, none⟩ cHeap ⟨1, one_ne_zero⟩
      [0, 0, 0, 0, 0, 5] [32]).1 ⟨5⟩ rfl,
   (new_error_paths ⟨none, some ⟨6⟩⟩ cHeap ⟨1, one_ne_zero⟩
      [0, 0, 0, 0, 0, 5] [32]).2.1 ⟨6⟩ rfl rfl (by decide) (by decide)⟩

theorem Sid.beq_iff (heap : Heap) (a b : Sid) :
    Sid.beq heap a b = true ↔
      ((heap a.ptr.val).idAuthority = (heap b.ptr.val).idAuthority ∧
       (heap a.ptr.val).subAuthorities = (heap b.ptr.val).subAuthorities) := by
  simp [Sid.beq, EqualSid]

/-- C4: `a == b` delegates to the native equality comparison, which holds
iff the two records have identical identifier-authority and sub-authority
content (not pointer identity); equality is reflexive and symmetric; two
`Sid`s independently constructed (at distinct fresh addresses) from the
same parameters compare equal, and replacing any one sub-authority by a
different value makes them compare unequal. -/
theorem sid_equality (heap : Heap) (a b : Sid) :
    Sid.beq heap a b = EqualSid heap a b ∧
    (Sid.beq heap a b = true ↔
      ((heap a.ptr.val).idAuthority = (heap b.ptr.val).idAuthority ∧
       (heap a.ptr.val).subAuthorities = (heap b.ptr.val).subAuthorities)) ∧
    Sid.beq heap a a = true ∧
    Sid.beq heap a b = Sid.beq heap b a ∧
    (∀ (env : NativeEnv) (id_auth sub_auths : List Nat) (f1 f2 : NonNullPtr)
        (heap1 heap2 : Heap) (s1 s2 : Sid),
      f1.val ≠ f2.val →
      Sid.new env heap f1 id_auth sub_auths = .ok (heap1, s1) →
      Sid.new env heap1 f2 id_auth sub_auths = .ok (heap2, s2) →
      Sid.beq heap2 s1 s2 = true) ∧
    (∀ (env : NativeEnv) (id_auth sub_auths : List Nat) (i v : Nat)
        (f1 f2 : NonNullPtr) (heap1 heap2 : Heap) (s1 s2 : Sid),
      f1.val ≠ f2.val → i < sub_auths.length → sub_auths.get? i ≠ some v →
      Sid.new env heap f1 id_auth sub_auths = .ok (heap1, s1) →
      Sid.new env heap1 f2 id_auth (sub_auths.set i v) = .ok (heap2, s2) →
      Sid.beq heap2 s1 s2 = false) := by
  refine ⟨rfl, Sid.beq_iff heap a b, ?_, ?_, ?_, ?_⟩
  · exact (Sid.beq_iff heap a a).mpr ⟨rfl, rfl⟩
  · refine Bool.eq_iff_iff.mpr ?_
    rw [Sid.beq_iff, Sid.beq_iff]
    constructor <;> (rintro ⟨h1, h2⟩; exact ⟨h1.symm, h2.symm⟩)
  · intro env id_auth sub_auths f1 f2 heap1 heap2 s1 s2 hne hok1 hok2
    rcases Sid.new_eq_ok.mp hok1 with ⟨-, -, -, -, -, hout1⟩
    injection hout1 with hh1 hs1
    subst hh1; subst hs1
    rcases Sid.new_eq_ok.mp hok2 with ⟨-, -, -, -, -, hout2⟩
    injection hout2 with hh2 hs2
    subst hh2; subst hs2
    refine (Sid.beq_iff _ _ _).mpr ?_
    simp only [Sid.ptr]
    rw [Heap.write_other _ _ _ _ hne, Heap.write_same, Heap.write_same]
    exact ⟨rfl, rfl⟩
  · intro env id_auth sub_auths i v f1 f2 heap1 heap2 s1 s2 hne hi hv hok1 hok2
    rcases Sid.new_eq_ok.mp hok1 with ⟨-, -, -, -, -, hout1⟩
    injection hout1 with hh1 hs1
    subst hh1; subst hs1
    rcases Sid.new_eq_ok.mp hok2 with ⟨-, -, -, -, -, hout2⟩
    injection hout2 with hh2 hs2
    subst hh2; subst hs2
    have hlists : sub_auths ≠ sub_auths.set i v := by
      intro hEq
      have hset : (sub_auths.set i v).get? i = some v := List.get?_set_eq_of_lt v hi
      exact hv (by rw [hEq]; exact hset)
    refine (Bool.not_eq_true _).mp ?_
    intro hTrue
    rcases (Sid.beq_iff _ _ _).mp hTrue with ⟨-, hsub⟩
    simp only [Sid.ptr] at hsub
    rw [Heap.write_other _ _ _ _ hne, Heap.write_same, Heap.write_same] at hsub
    exact hlists hsub

/-- C4 witness: two SIDs built at distinct addresses from the same
parameters compare equal, and changing one sub-authority makes them
compare unequal. -/
theorem sid_equality_witness :
    Sid.beq ((cHeap.write 1 ⟨1, [0, 0, 0, 0, 0, 5], [32]⟩).write 2
        ⟨1, [0, 0, 0, 0, 0, 5], [32]⟩) ⟨⟨1, by decide⟩⟩ ⟨⟨2, by decide⟩⟩ = true ∧
    Sid.beq ((cHeap.write 1 ⟨1, [0, 0, 0, 0, 0, 5], [32]⟩).write 2
        ⟨1, [0, 0, 0, 0, 0, 5], [33]⟩) ⟨⟨1, by decide⟩⟩ ⟨⟨2, by decide⟩⟩ = false := by
  constructor
  · exact (sid_equality cHeap ⟨⟨1, by decide⟩⟩ ⟨⟨1, by decide⟩⟩).2.2.2.2.1
      ⟨none, none⟩ [0, 0, 0, 0, 0, 5] [32] ⟨1, by decide⟩ ⟨2, by decide⟩
      (cHeap.write 1 ⟨1, [0, 0, 0, 0, 0, 5], [32]⟩)
      ((cHeap.write 1 ⟨1, [0, 0, 0, 0, 0, 5], [32]⟩).write 2
        ⟨1, [0, 0, 0, 0, 0, 5], [32]⟩)
      ⟨⟨1, by decide⟩⟩ ⟨⟨2, by decide⟩⟩ (by decide) rfl rfl
  · exact (sid_equality cHeap ⟨⟨1, by decide⟩⟩ ⟨⟨1, by decide⟩⟩).2.2.2.2.2
      ⟨none, none⟩ [0, 0, 0, 0, 0, 5] [32] 0 33 ⟨1, by decide⟩ ⟨2, by decide⟩
      (cHeap.write 1 ⟨1, [0, 0, 0, 0, 0, 5], [32]⟩)
      ((cHeap.write 1 ⟨1, [0, 0, 0, 0, 0, 5], [32]⟩).write 2
        ⟨1, [0, 0, 0, 0, 0, 5], [33]⟩)
      ⟨⟨1, by decide⟩⟩ ⟨⟨2, by decide⟩⟩ (by decide) (by decide) (by decide) rfl rfl

/-- C5: `SecurityDescriptor::from_raw` hits its fatal assertion iff the
descriptor buffer pointer is null, and for every non-null buffer it
returns a descriptor whatever the four sub-pointers are; no pointer is
dereferenced on either path (the embedding of `from_raw` takes no heap, so
no memory read occurs before or after the null check). -/
theorem from_raw_null_check (sd owner group dacl sacl : Ptr) :
    ((SecurityDescriptor.from_raw sd owner group dacl sacl).isFatal = true ↔ sd = 0) ∧
    ∀ h : sd ≠ 0, SecurityDescriptor.from_raw sd owner group dacl sacl =
      .ok ⟨⟨sd, h⟩, NonNullPtr.new owner, NonNullPtr.new group,
        NonNullPtr.new dacl, NonNullPtr.new sacl⟩ := by
  unfold SecurityDescriptor.from_raw
  by_cases h0 : sd = 0
  · constructor
    · simp [NonNullPtr.new, h0, FatalOr.isFatal]
    · intro h
      exact absurd h0 h
  · constructor
    · simp [NonNullPtr.new, h0, FatalOr.isFatal]
    · intro h
      simp [NonNullPtr.new, h0]

/-- C5 witness: a null buffer is rejected fatally; a non-null buffer with
null and non-null sub-pointers is accepted. -/
theorem from_raw_null_check_witness :
    (SecurityDescriptor.from_raw 0 1 2 3 4).isFatal = true ∧
    SecurityDescriptor.from_raw 7 0 5 0 0 =
      .ok ⟨⟨7, by decide⟩, NonNullPtr.new 0, NonNullPtr.new 5,
        NonNullPtr.new 0, NonNullPtr.new 0⟩ :=
  ⟨(from_raw_null_check 0 1 2 3 4).1.mpr rfl,
   (from_raw_null_check 7 0 5 0 0).2 (by decide)⟩

/-- C6: a descriptor built with all four sub-pointers null reports no
owner and no group; a descriptor built with a non-null owner pointer
reports an owner view located at that pointer whose accessors read the
record stored there. -/
theorem descriptor_owner_group (heap : Heap) (sd owner group dacl sacl : Ptr) :
    (∀ d, SecurityDescriptor.from_raw sd 0 0 0 0 = .ok d →
      d.ownerView = none ∧ d.groupView = none) ∧
    (∀ d, owner ≠ 0 →
      SecurityDescriptor.from_raw sd owner group dacl sacl = .ok d →
      ∃ s, d.ownerView = some s ∧ s.as_ptr = owner ∧
        Sid.id_authority heap s = (heap owner).idAuthority ∧
        Sid.sub_authority_count heap s = (heap owner).subAuthorities.length ∧
        ∀ i, Sid.sub_authority heap s i = (heap owner).subAuthorities.get? i) := by
  constructor
  · intro d hok
    unfold SecurityDescriptor.from_raw at hok
    rcases hnn : NonNullPtr.new sd with - | sdp
    · rw [hnn] at hok
      exact absurd hok (by simp)
    · rw [hnn] at hok
      dsimp only at hok
      simp only [FatalOr.ok.injEq] at hok
      subst hok
      constructor
      · unfold SecurityDescriptor.ownerView
        simp [NonNullPtr.new]
      · unfold SecurityDescriptor.groupView
        simp [NonNullPtr.new]
  · intro d ho hok
    unfold SecurityDescriptor.from_raw at hok
    rcases hnn : NonNullPtr.new sd with - | sdp
    · rw [hnn] at hok
      exact absurd hok (by simp)
    · rw [hnn] at hok
      dsimp only at hok
      simp only [FatalOr.ok.injEq] at hok
      subst hok
      refine ⟨Sid.ref_from_nonnull ⟨owner, ho⟩, ?_, rfl, rfl, rfl, ?_⟩
      · unfold SecurityDescriptor.ownerView
        simp [NonNullPtr.new, ho]
      · intro i
        exact Sid.sub_authority_eq_lookup heap (Sid.ref_from_nonnull ⟨owner, ho⟩) i

/-- C6 witness: concrete descriptors with all-null sub-pointers and with a
non-null owner pointer. -/
theorem descriptor_owner_group_witness :
    (∃ d, SecurityDescriptor.from_raw 7 0 0 0 0 = .ok d ∧
      d.ownerView = none ∧ d.groupView = none) ∧
    (∃ d, SecurityDescriptor.from_raw 7 9 0 0 0 = .ok d ∧
      ∃ s, d.ownerView = some s ∧ s.as_ptr = 9 ∧
        Sid.id_authority cHeap s = (cHeap 9).idAuthority ∧
        Sid.sub_authority_count cHeap s = (cHeap 9).subAuthorities.length ∧
        ∀ i, Sid.sub_authority cHeap s i = (cHeap 9).subAuthorities.get? i) := by
  constructor
  · refine ⟨⟨⟨7, by decide⟩, none, none, none, none⟩, by rfl, ?_⟩
    exact (descriptor_owner_group cHeap 7 0 0 0 0).1
      ⟨⟨7, by decide⟩, none, none, none, none⟩ (by rfl)
  · refine ⟨⟨⟨7, by decide⟩, NonNullPtr.new 9, none, none, none⟩, by rfl, ?_⟩
    exact (descriptor_owner_group cHeap 7 9 0 0 0).2
      ⟨⟨7, by decide⟩, NonNullPtr.new 9, none, none, none⟩ (by decide) (by rfl)

/-- C7 counterexample: a failing `LocalFree` during the destruction of an
owned `Sid` (non-null result 5) is not a fatal assertion — the result of
the call at structures.rs line 16 is discarded, so the drop completes
normally, contradicting the claim that every owning object of the core
asserts deallocation success. -/
theorem sid_drop_ignores_failure :
    Sid.dropOutcome 5 = FatalOr.ok () ∧ (Sid.dropOutcome 5).isFatal = false := by
  constructor <;> rfl

/-- C7 amended: a failure of the native deallocation call is a fatal
assertion for a `SecurityDescriptor` (whose destructor asserts the result
is null), while the destructor of an owned `Sid` discards the result of
the call, so a deallocation failure there is ignored rather than
asserted. -/
theorem dealloc_failure_fatal_only_for_descriptor (r : LocalFreeResult) :
    Sid.dropOutcome r = FatalOr.ok () ∧
    ((SecurityDescriptor.dropOutcome r).isFatal = true ↔ r ≠ 0) := by
  constructor
  · rfl
  · unfold SecurityDescriptor.dropOutcome
    by_cases h : r = 0 <;> simp [h, FatalOr.isFatal]

/-- C8: the `Display` implementation renders exactly the string returned
by the native SID-to-string conversion, and a conversion failure is a
fatal assertion (the `expect` at structures.rs line 117), never a
recoverable error value. -/
theorem display_renders_conversion (conv : Sid → ConvertSidToStringSidResult) (s : Sid) :
    (∀ str, conv s = .ok str → Sid.display conv s = .ok str) ∧
    (∀ e, conv s = .error e → Sid.display conv s =
      .fatal "Passed a safe Sid to ConvertSidToStringSid but got an error") := by
  constructor
  · intro str h
    unfold Sid.display
    rw [h]
  · intro e h
    unfold Sid.display
    rw [h]

/-- C8 witness: a successful conversion is rendered verbatim; a failing
conversion aborts with the expect message. -/
theorem display_renders_conversion_witness :
    Sid.display (fun _ => Except.ok "S-1-5-32-544") ⟨⟨1, one_ne_zero⟩⟩ =
      .ok "S-1-5-32-544" ∧
    Sid.display (fun _ => Except.error ⟨87⟩) ⟨⟨1, one_ne_zero⟩⟩ =
      .fatal "Passed a safe Sid to ConvertSidToStringSid but got an error" :=
  ⟨(display_renders_conversion (fun _ => Except.ok "S-1-5-32-544")
      ⟨⟨1, one_ne_zero⟩⟩).1 "S-1-5-32-544" rfl,
   (display_renders_conversion (fun _ => Except.error ⟨87⟩)
      ⟨⟨1, one_ne_zero⟩⟩).2 ⟨87⟩ rfl⟩

theorem AllocateAndInitializeSid_eq_ok {env : NativeEnv} {heap : Heap}
    {fresh : NonNullPtr} {id_auth sub_auths : List Nat} {out : Heap × Sid} :
    AllocateAndInitializeSid env heap fresh id_auth sub_auths = .ok out ↔
      env.allocFail = none ∧ 1 ≤ sub_auths.length ∧ sub_auths.length ≤ 8 ∧
      out = (heap.write fresh.val ⟨1, id_auth, sub_auths⟩, ⟨fresh⟩) := by
  unfold AllocateAndInitializeSid
  cases hA : env.allocFail with
  | some e => simp [hA]
  | none =>
    by_cases hlen : 1 ≤ sub_auths.length ∧ sub_auths.length ≤ 8
    · simp [hlen, hlen.1, hlen.2, eq_comm]
    · simp [hlen]
      exact fun h1 h8 => (hlen ⟨h1, h8⟩).elim

/-- C9: destruction of an owning `Sid` emits exactly one `LocalFree` of
its own buffer and frees nothing else; destruction of a
`SecurityDescriptor` frees exactly its own buffer, so a borrowed owner or
group view living inside the buffer is never independently released, and a
borrowed `&Sid` reference itself has no destructor; and a run of
`Sid::new` followed by the eventual drop of its result — including the
early-return path where the validity check fails mid-construction — frees
the allocated buffer exactly once. -/
theorem free_exactly_once (env : NativeEnv) (heap : Heap) (fresh : NonNullPtr)
    (id_auth sub_auths : List Nat) (d : SecurityDescriptor) (s : Sid) :
    freeCount s.ptr.val (Sid.dropEvents s) = 1 ∧
    (∀ q : Ptr, q ≠ s.ptr.val → freeCount q (Sid.dropEvents s) = 0) ∧
    (∀ q : Ptr, freeCount q (SecurityDescriptor.dropEvents d) =
      if q = d.sd.val then 1 else 0) ∧
    (∀ q : Ptr, freeCount q borrowDropEvents = 0) ∧
    (∀ heap2 s2, Sid.new env heap fresh id_auth sub_auths = .ok (heap2, s2) →
      s2.ptr.val = fresh.val ∧
      freeCount fresh.val
        (Sid.newEvents env heap fresh id_auth sub_auths ++ Sid.dropEvents s2) = 1 ∧
      allocCount fresh.val (Sid.newEvents env heap fresh id_auth sub_auths) = 1) ∧
    (∀ e, Sid.new env heap fresh id_auth sub_auths = .error e →
      freeCount fresh.val (Sid.newEvents env heap fresh id_auth sub_auths) =
        allocCount fresh.val (Sid.newEvents env heap fresh id_auth sub_auths)) := by
  refine ⟨?_, ?_, ?_, ?_, ?_, ?_⟩
  · simp [freeCount, Sid.dropEvents]
  · intro q hq
    simp [freeCount, Sid.dropEvents, hq]
  · intro q
    by_cases hq : q = d.sd.val <;>
      simp [freeCount, SecurityDescriptor.dropEvents, hq]
  · intro q
    simp [freeCount, borrowDropEvents]
  · intro heap2 s2 hok
    rcases Sid.new_eq_ok.mp hok with ⟨hA, hV, h1, h8, hid, hout⟩
    injection hout with hh hs
    subst hh; subst hs
    have hall : AllocateAndInitializeSid env heap fresh id_auth sub_auths =
        .ok (heap.write fresh.val ⟨1, id_auth, sub_auths⟩, ⟨fresh⟩) :=
      AllocateAndInitializeSid_eq_ok.mpr ⟨hA, h1, h8, rfl⟩
    have hvalid : IsValidSid env
        (heap.write fresh.val ⟨1, id_auth, sub_auths⟩) ⟨fresh⟩ = .ok () := by
      unfold IsValidSid
      rw [hV]
      simp [SidRecord.wf, Heap.write_same, hid, h8]
    refine ⟨rfl, ?_, ?_⟩ <;>
      · unfold Sid.newEvents
        rw [hall]
        dsimp only
        rw [hvalid]
        simp [freeCount, allocCount, Sid.dropEvents]
  · intro e herr
    unfold Sid.new at herr
    rcases hall : AllocateAndInitializeSid env heap fresh id_auth sub_auths
      with e1 | pair
    · unfold Sid.newEvents
      rw [hall]
      simp [freeCount, allocCount]
    · rcases pair with ⟨hp, sd⟩
      rw [hall] at herr
      dsimp only at herr
      rcases AllocateAndInitializeSid_eq_ok.mp hall with ⟨-, -, -, hout⟩
      injection hout with hh hs
      subst hh; subst hs
      rcases hv : IsValidSid env (heap.write fresh.val ⟨1, id_auth, sub_auths⟩) ⟨fresh⟩
        with e2 | u
      · unfold Sid.newEvents
        rw [hall]
        dsimp only
        rw [hv]
        simp [freeCount, allocCount, Sid.dropEvents]
      · rw [hv] at herr
        exact absurd herr (by simp)

/-- C9 witness: one successful construction whose buffer is freed exactly
once by the later drop, and one failing-validation construction whose
buffer is freed exactly once by the early-return path. -/
theorem free_exactly_once_witness :
    freeCount 3 (Sid.newEvents ⟨none, none⟩ cHeap ⟨3, three_ne_zero⟩
      [0, 0, 0, 0, 0, 5] [32] ++ Sid.dropEvents ⟨⟨3, three_ne_zero⟩⟩) = 1 ∧
    freeCount 3 (Sid.newEvents ⟨none, some ⟨6⟩⟩ cHeap ⟨3, three_ne_zero⟩
        [0, 0, 0, 0, 0, 5] [32]) =
      allocCount 3 (Sid.newEvents ⟨none, some ⟨6⟩⟩ cHeap ⟨3, three_ne_zero⟩
        [0, 0, 0, 0, 0, 5] [32]) :=
  ⟨((free_exactly_once ⟨none, none⟩ cHeap ⟨3, three_ne_zero⟩ [0, 0, 0, 0, 0, 5] [32]
      ⟨⟨7, by decide⟩, none, none, none, none⟩ ⟨⟨1, one_ne_zero⟩⟩).2.2.2.2.1
      (cHeap.write 3 ⟨1, [0, 0, 0, 0, 0, 5], [32]⟩) ⟨⟨3, three_ne_zero⟩⟩ rfl).2.1,
   (free_exactly_once ⟨none, some ⟨6⟩⟩ cHeap ⟨3, three_ne_zero⟩ [0, 0, 0, 0, 0, 5] [32]
      ⟨⟨7, by decide⟩, none, none, none, none⟩ ⟨⟨1, one_ne_zero⟩⟩).2.2.2.2.2 ⟨6⟩ rfl⟩

/-- C1 witness: the bounds behaviour on a concrete one-sub-authority SID. -/
theorem sub_authority_present_iff_below_count_witness :
    ((Sid.sub_authority cHeap ⟨⟨1, one_ne_zero⟩⟩ 0).isSome ↔
      0 < Sid.sub_authority_count cHeap ⟨⟨1, one_ne_zero⟩⟩) ∧
    Sid.sub_authority cHeap ⟨⟨1, one_ne_zero⟩⟩ 0 =
      (cHeap 1).subAuthorities.get? 0 :=
  sub_authority_present_iff_below_count cHeap ⟨⟨1, one_ne_zero⟩⟩ 0

/-- C7 witness: a successful deallocation is silent for both destructors,
and a failing one aborts the descriptor's destructor. -/
theorem dealloc_failure_fatal_only_for_descriptor_witness :
    Sid.dropOutcome 0 = FatalOr.ok () ∧
    (SecurityDescriptor.dropOutcome 5).isFatal = true :=
  ⟨(dealloc_failure_fatal_only_for_descriptor 0).1,
   (dealloc_failure_fatal_only_for_descriptor 5).2.mpr (by decide)⟩

/-- C10 witness: round-trip of a concrete non-null handle. -/
theorem owned_from_nonnull_as_ptr_witness :
    (Sid.owned_from_nonnull ⟨41, by decide⟩).as_ptr = 41 :=
  owned_from_nonnull_as_ptr ⟨41, by decide⟩

end WinPerm
